import Mathlib

/-!
Shallow embedding of the App Center portion of the `vscode-react-native`
extension: the `AppCenterCommandExecutor` commands (login, logout, whoAmI,
getCurrentApp, setCurrentApp, releaseReact), the profile round-trip helpers
(`saveCurrentApp`, `restoreCurrentApp`, `loginWithToken`), the UI strings
(`ACStrings`), the command parameter shapes (`DefaultApp`,
`ICodePushReleaseParams`), and the generated serialization mapper
(`ListOKResponseItem.mapper`).

Each command is modelled as a pure function from its external inputs (user
selections of quick-picks, input boxes and message buttons, outcomes of the
network calls, and the persisted profile store) to the value it returns and
the ordered trace of observable effects it performs.  A JavaScript runtime
error raised inside a promise callback (a thrown `Error` or a `TypeError`
from a member access on `undefined`) is recorded as an `Effect.fault` entry
that terminates the trace.
-/

namespace AppCenter

/-- `DefaultApp` from `commandParams.ts`. -/
structure DefaultApp where
  ownerName : String
  appName : String
  identifier : String
deriving DecidableEq, Repr

/-- `Profile` as used by the executor: a display name plus the optional
persisted default app. -/
structure Profile where
  displayName : String
  defaultApp : Option DefaultApp
deriving DecidableEq, Repr

/-- `ICodePushReleaseParams` from `commandParams.ts`: the two required
fields beyond `app`, and the optional fields (absent = `none`). -/
structure ICodePushReleaseParams where
  app : DefaultApp
  deploymentName : String
  updatedContentZipPath : String
  appVersion : Option String
  description : Option String
  isDisabled : Option Bool
  isMandatory : Option Bool
  label : Option String
  packageHash : Option String
  rollout : Option Nat
deriving DecidableEq, Repr

namespace ACStrings

def SelectLoginTypeMsg : String := "Please select the way you would like to login to AppCenter"

def PleaseProvideToken : String := "Please provide token to authenticate"

def PleaseLoginViaBrowser : String := "Please login to AppCenter in the browser window we will open, then enter your token from the browser to vscode"

def UserLoggedOutMsg : String := "Successfully logged out from App Center"

def UserIsNotLoggedInMsg : String := "You are not logged in to App Center"

def LogoutPrompt : String := "Please execute logout to signoff from App Center"

def NoCurrentAppSetMsg : String := "No current app is specified for App Center"

def ProvideCurrentAppPromptMsg : String := "Please specify existant current app"

def InvalidCurrentAppNameMsg : String := "Sorry, provided app name is invalid"

def FailedToExecuteLoginMsg : String := "Failed to execute login to App Center"

def YouAreLoggedInMsg (name : String) : String := "You are logged in to App Center as " ++ name

def YourCurrentAppMsg (appName : String) : String := "Your current app is " ++ appName

end ACStrings

/-- JavaScript `String.prototype.toLowerCase` on the ASCII strings the
executor compares ("OK" buttons). -/
def jsToLowerCase (s : String) : String := ⟨s.data.map Char.toLower⟩

/-- Splits a character list at its first slash: `some (before, after)`
when a slash occurs, `none` otherwise. -/
def splitFirstSlash : List Char → Option (List Char × List Char)
  | [] => none
  | c :: cs =>
    if c = '/' then some ([], cs)
    else
      match splitFirstSlash cs with
      | some (o, a) => some (c :: o, a)
      | none => none

/-- Modelled from the spec: `ACUtils.toDefaultApp` lives in a repository
file that is not under `src/` (only its callers are).  The spec describes
the selection as "a single current app selection" entered as an
`owner/app` pair, so the model parses a string consisting of a nonempty
owner part, a single slash, and a nonempty app part (neither part
containing a slash) into a `DefaultApp` whose identifier is
`owner ++ "/" ++ app`, and yields `none` for every other string. -/
def ACUtils.toDefaultApp (app : String) : Option DefaultApp :=
  match splitFirstSlash app.data with
  | none => none
  | some (o, a) =>
    if o.isEmpty || a.isEmpty || a.contains '/' then none
    else some { ownerName := ⟨o⟩, appName := ⟨a⟩, identifier := (⟨o⟩ : String) ++ "/" ++ (⟨a⟩ : String) }

/-- Modelled from the spec: the `AppCenterLoginType` enum is declared in a
file that is not under `src/`.  The spec describes "OAuth/token login
flows", i.e. the two members `Interactive` and `Token`; the executor's
`Object.keys(...).filter(k => typeof AppCenterLoginType[k] === "number")`
over that numeric enum yields exactly the member names. -/
def appCenterLoginOptions : List String := ["Interactive", "Token"]

/-- Observable effects performed by the executor: editor UI calls, status
bar updates, network client calls, profile writes, and runtime faults. -/
inductive Effect where
  | showQuickPick (choices : List String) (placeHolder : String)
  | showInputBox (prompt : String)
  | showInfoMessage (msg : String) (items : List String)
  | showWarningMessage (msg : String)
  | openUrl (url : String)
  | logErrorMsg (msg : String)
  | statusBarAuthenticated (displayName : String)
  | statusBarNotAuthenticated
  | statusBarCurrentApp (appName : Option String)
  | doLogoutCall
  | doTokenLoginCall (token : String)
  | codePushReleaseExec (params : ICodePushReleaseParams)
  | profileSave (p : Profile)
  | fault (msg : String)
deriving DecidableEq, Repr

/-- The state of the `Q.Promise<void>` a public command returns. -/
inductive PromiseOutcome where
  | resolvedVoid
  | rejected (msg : String)
deriving DecidableEq, Repr

/-- What a public command produces: the promise it returns (the executor
builds it with `Q.resolve(void 0)` synchronously, before any prompt
callback runs) and the trace of effects its started callbacks perform. -/
structure CommandResult where
  ret : PromiseOutcome
  trace : List Effect
deriving DecidableEq, Repr

/-- The string `restoreCurrentApp` rebuilds from the stored profile:
`ownerName/appName` when a default app is stored, `""` otherwise. -/
def Profile.currentAppString (p : Profile) : String :=
  match p.defaultApp with
  | some d => d.ownerName ++ "/" ++ d.appName
  | none => ""

/-- `AppCenterCommandExecutor.restoreCurrentApp`: reads `getUser()`; when a
user exists, rebuilds the `owner/app` string from the stored default app
(or `""`) and re-parses it with `ACUtils.toDefaultApp`; yields `none` when
there is no user or the re-parse fails. -/
def restoreCurrentApp (st : Option Profile) : Option DefaultApp :=
  match st with
  | some user => ACUtils.toDefaultApp user.currentAppString
  | none => none

/-- Result of `saveCurrentApp`: the boolean the promise resolves with, the
profile store afterwards, and the effects performed. -/
structure SaveResult where
  saved : Bool
  state : Option Profile
  trace : List Effect
deriving DecidableEq, Repr

/-- `AppCenterCommandExecutor.saveCurrentApp`: parses the entered string;
on parse failure shows `InvalidCurrentAppNameMsg` and resolves `false`;
with no user profile shows `UserIsNotLoggedInMsg` and resolves `false`;
otherwise sets `profile.defaultApp`, calls `profile.save()` and resolves
`true`. -/
def saveCurrentApp (currentApp : String) (st : Option Profile) : SaveResult :=
  match ACUtils.toDefaultApp currentApp with
  | none =>
    { saved := false, state := st
      trace := [Effect.showWarningMessage ACStrings.InvalidCurrentAppNameMsg] }
  | some d =>
    match st with
    | some profile =>
      let updated : Profile := { profile with defaultApp := some d }
      { saved := true, state := some updated, trace := [Effect.profileSave updated] }
    | none =>
      { saved := false, state := st
        trace := [Effect.showWarningMessage ACStrings.UserIsNotLoggedInMsg] }

/-- `AppCenterCommandExecutor.loginWithToken`: returns immediately when the
token is missing (`undefined` or `""`, both falsy under JavaScript `!`);
otherwise calls `Auth.doTokenLogin`; when that yields no profile it logs an
error and shows `FailedToExecuteLoginMsg`; on success it shows the
logged-in message, switches the status bar to authenticated, and sets the
current-app status bar from `restoreCurrentApp`. -/
def loginWithToken (token : Option String) (tokenLoginResult : Option Profile)
    (st : Option Profile) : List Effect :=
  match token with
  | none => []
  | some t =>
    if t = "" then []
    else
      Effect.doTokenLoginCall t ::
        match tokenLoginResult with
        | none =>
          [Effect.logErrorMsg "Failed to fetch user info from server",
           Effect.showWarningMessage ACStrings.FailedToExecuteLoginMsg]
        | some profile =>
          Effect.showInfoMessage (ACStrings.YouAreLoggedInMsg profile.displayName) [] ::
          Effect.statusBarAuthenticated profile.displayName ::
            match restoreCurrentApp st with
            | some app => [Effect.statusBarCurrentApp (some app.identifier)]
            | none => [Effect.statusBarCurrentApp none]

/-- The callback the login command attaches to the
`PleaseLoginViaBrowser` information message.  `showInformationMessage`
resolves with `undefined` when the message is dismissed; the source then
evaluates `selection.toLowerCase()`, a member access on `undefined`, which
throws a `TypeError` — recorded here as a fault.  For a defined selection
it opens the login url and prompts for a token exactly when the selection
lower-cases to `"ok"`. -/
def interactiveSelectionHandler (selection : Option String) (loginUrl : String)
    (tokenInput : Option String) (tokenLoginResult : Option Profile)
    (st : Option Profile) : List Effect :=
  match selection with
  | none => [Effect.fault "TypeError: cannot read toLowerCase of undefined"]
  | some sel =>
    if jsToLowerCase sel = "ok" then
      Effect.openUrl loginUrl :: Effect.showInputBox ACStrings.PleaseProvideToken ::
        loginWithToken tokenInput tokenLoginResult st
    else []

/-- `AppCenterCommandExecutor.login`: shows a quick-pick of the login type
names, then branches on the selection: `Interactive` shows the browser
information message with an `"OK"` item and runs
`interactiveSelectionHandler`; `Token` shows a token input box and runs
`loginWithToken`; any other selection (including dismissal) hits the
`default` branch, which throws `Error("Unsupported login parameter!")`.
The command itself returns `Q.resolve(void 0)` synchronously. -/
def login (quickPick : Option String) (infoSel : Option String)
    (tokenInput : Option String) (tokenLoginResult : Option Profile)
    (st : Option Profile) (loginUrl : String) : CommandResult :=
  let pick : Effect := Effect.showQuickPick appCenterLoginOptions ACStrings.SelectLoginTypeMsg
  let innerTrace : List Effect :=
    match quickPick with
    | some s =>
      if s = "Interactive" then
        Effect.showInfoMessage ACStrings.PleaseLoginViaBrowser ["OK"] ::
          interactiveSelectionHandler infoSel loginUrl tokenInput tokenLoginResult st
      else if s = "Token" then
        Effect.showInputBox ACStrings.PleaseProvideToken ::
          loginWithToken tokenInput tokenLoginResult st
      else [Effect.fault "Unsupported login parameter!"]
    | none => [Effect.fault "Unsupported login parameter!"]
  { ret := PromiseOutcome.resolvedVoid, trace := pick :: innerTrace }

/-- `AppCenterCommandExecutor.logout`: shows a quick-pick whose only choice
is `"Logout"`; on that choice calls `Auth.doLogout`, then on success shows
`UserLoggedOutMsg` and switches the status bar to not-authenticated, and on
failure logs an error; any other selection does nothing.  The command
returns `Q.resolve(void 0)` synchronously. -/
def logout (selection : Option String) (logoutSucceeds : Bool) : CommandResult :=
  let pick : Effect := Effect.showQuickPick ["Logout"] ACStrings.LogoutPrompt
  let innerTrace : List Effect :=
    match selection with
    | some s =>
      if s = "Logout" then
        Effect.doLogoutCall ::
          (if logoutSucceeds then
            [Effect.showInfoMessage ACStrings.UserLoggedOutMsg [],
             Effect.statusBarNotAuthenticated]
          else [Effect.logErrorMsg "An errro occured on logout"])
      else []
    | none => []
  { ret := PromiseOutcome.resolvedVoid, trace := pick :: innerTrace }

/-- `AppCenterCommandExecutor.whoAmI`: shows the logged-in message when the
profile exists and has a truthy display name, the not-logged-in message
otherwise; returns `Q.resolve(void 0)`. -/
def whoAmI (profile : Option Profile) : CommandResult :=
  { ret := PromiseOutcome.resolvedVoid
    trace :=
      match profile with
      | some p =>
        if p.displayName = "" then [Effect.showInfoMessage ACStrings.UserIsNotLoggedInMsg []]
        else [Effect.showInfoMessage (ACStrings.YouAreLoggedInMsg p.displayName) []]
      | none => [Effect.showInfoMessage ACStrings.UserIsNotLoggedInMsg []] }

/-- `AppCenterCommandExecutor.getCurrentApp`: shows the current app's
identifier when `restoreCurrentApp` yields one, `NoCurrentAppSetMsg`
otherwise; returns `Q.resolve(void 0)`. -/
def getCurrentApp (st : Option Profile) : CommandResult :=
  { ret := PromiseOutcome.resolvedVoid
    trace :=
      match restoreCurrentApp st with
      | some app => [Effect.showInfoMessage (ACStrings.YourCurrentAppMsg app.identifier) []]
      | none => [Effect.showInfoMessage ACStrings.NoCurrentAppSetMsg []] }

/-- `AppCenterCommandExecutor.setCurrentApp`: shows the current-app input
box, runs `saveCurrentApp` on the entered string, and only when that
resolves `true` shows `YourCurrentAppMsg` for the entered string and
updates the current-app status bar with it.  Returns `Q.resolve(void 0)`
synchronously, paired here with the profile store afterwards. -/
def setCurrentApp (input : String) (st : Option Profile) : CommandResult × Option Profile :=
  let r := saveCurrentApp input st
  let tail : List Effect :=
    if r.saved then
      [Effect.showInfoMessage (ACStrings.YourCurrentAppMsg input) [],
       Effect.statusBarCurrentApp (some input)]
    else []
  ({ ret := PromiseOutcome.resolvedVoid
     trace := Effect.showInputBox ACStrings.ProvideCurrentAppPromptMsg :: r.trace ++ tail },
   r.state)

/-- `AppCenterCommandExecutor.releaseReact`: when `restoreCurrentApp`
yields a current app, calls `CodePushReleaseReact.exec` with the app, the
fixed binary version `"1.0.0"`, the fixed deployment `"Staging"`, and the
project root path as the zip path; otherwise shows the no-current-app
warning. -/
def releaseReact (st : Option Profile) (projectRootPath : String) : CommandResult :=
  match restoreCurrentApp st with
  | none =>
    { ret := PromiseOutcome.resolvedVoid
      trace := [Effect.showWarningMessage ACStrings.NoCurrentAppSetMsg] }
  | some currentApp =>
    let params : ICodePushReleaseParams :=
      { app := currentApp
        deploymentName := "Staging"
        updatedContentZipPath := projectRootPath
        appVersion := some "1.0.0"
        description := none
        isDisabled := none
        isMandatory := none
        label := none
        packageHash := none
        rollout := none }
    { ret := PromiseOutcome.resolvedVoid, trace := [Effect.codePushReleaseExec params] }

/-- One `modelProperties` entry of a generated AutoRest mapper. -/
structure PropertyDescriptor where
  required : Bool
  serializedName : String
  typeName : String
deriving DecidableEq, Repr

/-- The composite descriptor a generated AutoRest `mapper()` returns. -/
structure CompositeDescriptor where
  required : Bool
  serializedName : String
  typeName : String
  className : String
  modelProperties : List (String × PropertyDescriptor)
deriving DecidableEq, Repr

/-- `ListOKResponseItem.mapper()` from the generated client model. -/
def ListOKResponseItem.mapper : CompositeDescriptor :=
  { required := false
    serializedName := "ListOKResponseItem"
    typeName := "Composite"
    className := "ListOKResponseItem"
    modelProperties :=
      [("displayName",
        { required := false, serializedName := "display_name", typeName := "String" }),
       ("name",
        { required := false, serializedName := "name", typeName := "String" }),
       ("origin",
        { required := false, serializedName := "origin", typeName := "String" })] }

end AppCenter

namespace AppCenter

/-- The part of a split before the first slash never contains a slash. -/
theorem splitFirstSlash_left_no_slash : ∀ {cs o a : List Char},
    splitFirstSlash cs = some (o, a) → '/' ∉ o := by
  intro cs
  induction cs with
  | nil => intro o a h; simp [splitFirstSlash] at h
  | cons c cs ih =>
    intro o a h
    by_cases hc : c = '/'
    · subst hc
      simp [splitFirstSlash] at h
      obtain ⟨rfl, rfl⟩ := h
      simp
    · rw [splitFirstSlash] at h
      rw [if_neg hc] at h
      cases hs : splitFirstSlash cs with
      | none => rw [hs] at h; simp at h
      | some pr =>
        rw [hs] at h
        obtain ⟨o2, a2⟩ := pr
        simp at h
        rw [← h.1]
        intro hm
        rcases List.mem_cons.mp hm with h1 | h2
        · exact hc h1.symm
        · exact ih hs h2

/-- Splitting `owner ++ "/" ++ rest` at the first slash recovers the two
parts when the owner part is slash-free. -/
theorem splitFirstSlash_append {o : List Char} (a : List Char) (ho : '/' ∉ o) :
    splitFirstSlash (o ++ '/' :: a) = some (o, a) := by
  induction o with
  | nil => simp [splitFirstSlash]
  | cons c o ih =>
    have hc : c ≠ '/' := fun h => ho (by simp [h])
    have ho2 : '/' ∉ o := fun h => ho (List.mem_cons_of_mem _ h)
    simp [splitFirstSlash, hc, ih ho2]

/-- Character data of the rebuilt `owner/app` string. -/
theorem data_mk_append (o a : List Char) :
    ((⟨o⟩ : String) ++ "/" ++ (⟨a⟩ : String)).data = o ++ '/' :: a := by
  simp [String.data_append]

/-- Re-parsing the `ownerName/appName` string of a parsed `DefaultApp`
yields the same `DefaultApp`. -/
theorem toDefaultApp_roundTrip {s : String} {d : DefaultApp}
    (h : ACUtils.toDefaultApp s = some d) :
    ACUtils.toDefaultApp (d.ownerName ++ "/" ++ d.appName) = some d := by
  unfold ACUtils.toDefaultApp at h
  cases hs : splitFirstSlash s.data with
  | none => rw [hs] at h; simp at h
  | some pr =>
    rw [hs] at h
    obtain ⟨o, a⟩ := pr
    dsimp only at h
    by_cases hcond : (o.isEmpty || a.isEmpty || a.contains '/') = true
    · rw [if_pos hcond] at h; simp at h
    · rw [if_neg hcond] at h
      simp at h
      have hno : '/' ∉ o := splitFirstSlash_left_no_slash hs
      rw [← h]
      show ACUtils.toDefaultApp ((⟨o⟩ : String) ++ "/" ++ (⟨a⟩ : String)) = _
      unfold ACUtils.toDefaultApp
      rw [data_mk_append, splitFirstSlash_append a hno]
      dsimp only
      rw [if_neg hcond]

end AppCenter

namespace AppCenter

/-- A concrete app used to exercise the commands. -/
def sampleApp : DefaultApp :=
  { ownerName := "owner", appName := "app", identifier := "owner/app" }

/-- A concrete logged-in profile with `sampleApp` stored. -/
def sampleProfile : Profile := { displayName := "me", defaultApp := some sampleApp }

/-- A concrete logged-in profile with no stored default app. -/
def bareProfile : Profile := { displayName := "me", defaultApp := none }

/-- Claim C1: `releaseReact` forwards exactly `app` = the restored current
app, `appVersion = "1.0.0"`, `deploymentName = "Staging"` and
`updatedContentZipPath` = the project root path, with every other optional
field unset; when no current app is restored it shows the
`NoCurrentAppSetMsg` warning and performs no release call. -/
theorem C1_releaseReact_fixed_params (st : Option Profile) (root : String) :
    (∀ app, restoreCurrentApp st = some app →
      (releaseReact st root).trace =
        [Effect.codePushReleaseExec
          { app := app, deploymentName := "Staging", updatedContentZipPath := root,
            appVersion := some "1.0.0", description := none, isDisabled := none,
            isMandatory := none, label := none, packageHash := none, rollout := none }]) ∧
    (restoreCurrentApp st = none →
      (releaseReact st root).trace = [Effect.showWarningMessage ACStrings.NoCurrentAppSetMsg] ∧
      ∀ p, Effect.codePushReleaseExec p ∉ (releaseReact st root).trace) := by
  constructor
  · intro app h
    simp [releaseReact, h]
  · intro h
    simp [releaseReact, h]

/-- Witness for C1 at a stored app `owner/app` and at an empty store. -/
theorem C1_releaseReact_fixed_params_witness :
    (releaseReact (some sampleProfile) "/proj").trace =
      [Effect.codePushReleaseExec
        { app := sampleApp, deploymentName := "Staging", updatedContentZipPath := "/proj",
          appVersion := some "1.0.0", description := none, isDisabled := none,
          isMandatory := none, label := none, packageHash := none, rollout := none }] ∧
    (releaseReact none "/proj").trace = [Effect.showWarningMessage ACStrings.NoCurrentAppSetMsg] :=
  ⟨(C1_releaseReact_fixed_params (some sampleProfile) "/proj").1 sampleApp (by decide),
   ((C1_releaseReact_fixed_params none "/proj").2 rfl).1⟩

/-- Claim C9: whenever `saveCurrentApp` resolves `false`, the profile store
is unchanged and no `profile.save()` call happens. -/
theorem C9_saveCurrentApp_atomic_on_failure (s : String) (st : Option Profile)
    (h : (saveCurrentApp s st).saved = false) :
    (saveCurrentApp s st).state = st ∧
    ∀ p, Effect.profileSave p ∉ (saveCurrentApp s st).trace := by
  cases hp : ACUtils.toDefaultApp s with
  | none => simp [saveCurrentApp, hp]
  | some d =>
    cases st with
    | none => simp [saveCurrentApp, hp]
    | some profile => simp [saveCurrentApp, hp] at h

/-- Witness for C9 at a non-parsing app name. -/
theorem C9_saveCurrentApp_atomic_on_failure_witness :
    (saveCurrentApp "bad" (some bareProfile)).state = some bareProfile ∧
    ∀ p, Effect.profileSave p ∉ (saveCurrentApp "bad" (some bareProfile)).trace :=
  C9_saveCurrentApp_atomic_on_failure "bad" (some bareProfile) (by decide)

/-- Claim C5: the `ListOKResponseItem` mapper is a Composite descriptor
named `ListOKResponseItem`, not required, with exactly three optional
String model properties mapping `displayName`, `name` and `origin` to the
serialized names `display_name`, `name` and `origin`. -/
theorem C5_listOKResponseItem_mapper :
    ListOKResponseItem.mapper.required = false ∧
    ListOKResponseItem.mapper.typeName = "Composite" ∧
    ListOKResponseItem.mapper.serializedName = "ListOKResponseItem" ∧
    ListOKResponseItem.mapper.className = "ListOKResponseItem" ∧
    ListOKResponseItem.mapper.modelProperties.length = 3 ∧
    (ListOKResponseItem.mapper.modelProperties.all
      (fun kv => !kv.2.required && kv.2.typeName == "String")) = true ∧
    ListOKResponseItem.mapper.modelProperties.lookup "displayName" =
      some { required := false, serializedName := "display_name", typeName := "String" } ∧
    ListOKResponseItem.mapper.modelProperties.lookup "name" =
      some { required := false, serializedName := "name", typeName := "String" } ∧
    ListOKResponseItem.mapper.modelProperties.lookup "origin" =
      some { required := false, serializedName := "origin", typeName := "String" } := by
  decide

/-- Claim C7: each public command of the executor returns a promise built
with `Q.resolve(void 0)`, hence already resolved with void for every
combination of prompt selections, network outcomes and store contents. -/
theorem C7_commands_return_resolved_void (quickPick infoSel tokenInput lsel : Option String)
    (tokenLoginResult st stg sts : Option Profile) (prof : Option Profile)
    (url input : String) (lok : Bool) :
    (login quickPick infoSel tokenInput tokenLoginResult st url).ret =
      PromiseOutcome.resolvedVoid ∧
    (logout lsel lok).ret = PromiseOutcome.resolvedVoid ∧
    (whoAmI prof).ret = PromiseOutcome.resolvedVoid ∧
    (getCurrentApp stg).ret = PromiseOutcome.resolvedVoid ∧
    (setCurrentApp input sts).1.ret = PromiseOutcome.resolvedVoid :=
  ⟨rfl, rfl, rfl, rfl, rfl⟩

/-- Claim C10 (evaluation): dismissing the `PleaseLoginViaBrowser`
information message makes the selection callback evaluate
`selection.toLowerCase()` on `undefined`, which faults with a `TypeError`
instead of being handled. -/
theorem C10_interactive_handler_faults_on_dismissal :
    interactiveSelectionHandler none "https://login" none none none =
      [Effect.fault "TypeError: cannot read toLowerCase of undefined"] := rfl

end AppCenter

namespace AppCenter

/-- Claim C2: a `setCurrentApp` entry is persisted exactly when it parses
to a `DefaultApp` and a user profile exists; then `saveCurrentApp` stores
it as `profile.defaultApp`, performs the `profile.save()` call and resolves
`true`, and `setCurrentApp` shows `YourCurrentAppMsg` and updates the
current-app status bar; otherwise `saveCurrentApp` resolves `false`, a
warning is shown, and no information message or status bar update
happens. -/
theorem C2_setCurrentApp_persists_iff (input : String) (st : Option Profile) :
    (∀ d p, ACUtils.toDefaultApp input = some d → st = some p →
      (saveCurrentApp input st).saved = true ∧
      (saveCurrentApp input st).state = some { p with defaultApp := some d } ∧
      (setCurrentApp input st).1.trace =
        [Effect.showInputBox ACStrings.ProvideCurrentAppPromptMsg,
         Effect.profileSave { p with defaultApp := some d },
         Effect.showInfoMessage (ACStrings.YourCurrentAppMsg input) [],
         Effect.statusBarCurrentApp (some input)]) ∧
    ((ACUtils.toDefaultApp input = none ∨ st = none) →
      (saveCurrentApp input st).saved = false ∧
      ((Effect.showWarningMessage ACStrings.InvalidCurrentAppNameMsg ∈
          (setCurrentApp input st).1.trace) ∨
       (Effect.showWarningMessage ACStrings.UserIsNotLoggedInMsg ∈
          (setCurrentApp input st).1.trace)) ∧
      (∀ m items, Effect.showInfoMessage m items ∉ (setCurrentApp input st).1.trace) ∧
      (∀ x, Effect.statusBarCurrentApp x ∉ (setCurrentApp input st).1.trace)) := by
  constructor
  · intro d p hd hp
    subst hp
    simp [saveCurrentApp, setCurrentApp, hd]
  · intro h
    rcases h with h | h
    · simp [saveCurrentApp, setCurrentApp, h]
    · subst h
      cases hd : ACUtils.toDefaultApp input with
      | none => simp [saveCurrentApp, setCurrentApp, hd]
      | some d => simp [saveCurrentApp, setCurrentApp, hd]

/-- Witness for C2: a parseable entry on a logged-in profile, and a
non-parseable entry. -/
theorem C2_setCurrentApp_persists_iff_witness :
    ((saveCurrentApp "owner/app" (some bareProfile)).saved = true ∧
      (saveCurrentApp "owner/app" (some bareProfile)).state = some sampleProfile ∧
      (setCurrentApp "owner/app" (some bareProfile)).1.trace =
        [Effect.showInputBox ACStrings.ProvideCurrentAppPromptMsg,
         Effect.profileSave sampleProfile,
         Effect.showInfoMessage (ACStrings.YourCurrentAppMsg "owner/app") [],
         Effect.statusBarCurrentApp (some "owner/app")]) ∧
    ((saveCurrentApp "bad" (some bareProfile)).saved = false ∧
      ((Effect.showWarningMessage ACStrings.InvalidCurrentAppNameMsg ∈
          (setCurrentApp "bad" (some bareProfile)).1.trace) ∨
       (Effect.showWarningMessage ACStrings.UserIsNotLoggedInMsg ∈
          (setCurrentApp "bad" (some bareProfile)).1.trace)) ∧
      (∀ m items, Effect.showInfoMessage m items ∉ (setCurrentApp "bad" (some bareProfile)).1.trace) ∧
      (∀ x, Effect.statusBarCurrentApp x ∉ (setCurrentApp "bad" (some bareProfile)).1.trace)) :=
  ⟨(C2_setCurrentApp_persists_iff "owner/app" (some bareProfile)).1 sampleApp bareProfile
      (by decide) rfl,
   (C2_setCurrentApp_persists_iff "bad" (some bareProfile)).2 (Or.inl (by decide))⟩

/-- Claim C4: saving then restoring round-trips: a successful
`saveCurrentApp` stores a parsed `DefaultApp` that a subsequent
`restoreCurrentApp` returns unchanged, and `restoreCurrentApp` yields
`none` exactly when there is no user profile or the stored profile's
default app does not re-parse (in particular, when none is stored). -/
theorem C4_save_restore_roundtrip (s : String) (st : Option Profile) :
    ((saveCurrentApp s st).saved = true →
      ∃ d, ACUtils.toDefaultApp s = some d ∧
        restoreCurrentApp (saveCurrentApp s st).state = some d) ∧
    (restoreCurrentApp st = none ↔
      st = none ∨ ∃ p, st = some p ∧ ACUtils.toDefaultApp p.currentAppString = none) ∧
    (∀ p, st = some p → p.defaultApp = none → restoreCurrentApp st = none) := by
  refine ⟨?_, ?_, ?_⟩
  · intro hsaved
    cases hd : ACUtils.toDefaultApp s with
    | none => simp [saveCurrentApp, hd] at hsaved
    | some d =>
      cases st with
      | none => simp [saveCurrentApp, hd] at hsaved
      | some p =>
        refine ⟨d, rfl, ?_⟩
        have : (saveCurrentApp s (some p)).state = some { p with defaultApp := some d } := by
          simp [saveCurrentApp, hd]
        rw [this]
        show ACUtils.toDefaultApp (Profile.currentAppString _) = some d
        have hstr : Profile.currentAppString { p with defaultApp := some d } =
            d.ownerName ++ "/" ++ d.appName := rfl
        rw [hstr]
        exact toDefaultApp_roundTrip hd
  · cases st with
    | none => simp [restoreCurrentApp]
    | some p => simp [restoreCurrentApp]
  · intro p hp hnone
    subst hp
    show ACUtils.toDefaultApp p.currentAppString = none
    rw [Profile.currentAppString, hnone]
    rfl

/-- Witness for C4: saving `owner/app` over a logged-in profile restores
the same app; a store with no default app restores nothing. -/
theorem C4_save_restore_roundtrip_witness :
    (∃ d, ACUtils.toDefaultApp "owner/app" = some d ∧
      restoreCurrentApp (saveCurrentApp "owner/app" (some bareProfile)).state = some d) ∧
    restoreCurrentApp (some bareProfile) = none :=
  ⟨(C4_save_restore_roundtrip "owner/app" (some bareProfile)).1 (by decide),
   (C4_save_restore_roundtrip "x" (some bareProfile)).2.2 bareProfile rfl rfl⟩

/-- Claim C6: `logout` offers the single choice `"Logout"`; `doLogout` is
called exactly when it is chosen; on success the trace continues with the
logged-out toast and the not-authenticated status bar, on failure with an
error log only; any other selection (including dismissal) adds nothing. -/
theorem C6_logout_branches (sel : Option String) (ok : Bool) :
    (logout sel ok).trace.head? =
      some (Effect.showQuickPick ["Logout"] ACStrings.LogoutPrompt) ∧
    (Effect.doLogoutCall ∈ (logout sel ok).trace ↔ sel = some "Logout") ∧
    (sel = some "Logout" → ok = true →
      (logout sel ok).trace =
        [Effect.showQuickPick ["Logout"] ACStrings.LogoutPrompt, Effect.doLogoutCall,
         Effect.showInfoMessage ACStrings.UserLoggedOutMsg [], Effect.statusBarNotAuthenticated]) ∧
    (sel = some "Logout" → ok = false →
      (logout sel ok).trace =
        [Effect.showQuickPick ["Logout"] ACStrings.LogoutPrompt, Effect.doLogoutCall,
         Effect.logErrorMsg "An errro occured on logout"]) ∧
    (sel ≠ some "Logout" →
      (logout sel ok).trace = [Effect.showQuickPick ["Logout"] ACStrings.LogoutPrompt]) := by
  cases sel with
  | none =>
    cases ok <;> simp [logout]
  | some s =>
    by_cases hs : s = "Logout"
    · subst hs
      cases ok <;> simp [logout]
    · cases ok <;> simp [logout, hs]

/-- Witness for C6 at the three reachable branches. -/
theorem C6_logout_branches_witness :
    (logout (some "Logout") true).trace =
      [Effect.showQuickPick ["Logout"] ACStrings.LogoutPrompt, Effect.doLogoutCall,
       Effect.showInfoMessage ACStrings.UserLoggedOutMsg [], Effect.statusBarNotAuthenticated] ∧
    (logout (some "Logout") false).trace =
      [Effect.showQuickPick ["Logout"] ACStrings.LogoutPrompt, Effect.doLogoutCall,
       Effect.logErrorMsg "An errro occured on logout"] ∧
    (logout none true).trace = [Effect.showQuickPick ["Logout"] ACStrings.LogoutPrompt] :=
  ⟨(C6_logout_branches (some "Logout") true).2.2.1 rfl rfl,
   (C6_logout_branches (some "Logout") false).2.2.2.1 rfl rfl,
   (C6_logout_branches none true).2.2.2.2 (by simp)⟩

/-- Claim C8: `loginWithToken` performs nothing for a missing token
(`undefined` or `""`); and with a real token whose `doTokenLogin` yields no
profile it logs, shows `FailedToExecuteLoginMsg`, and performs no status
bar update of either kind. -/
theorem C8_loginWithToken_missing_token (token : Option String)
    (tokenLoginResult st : Option Profile) :
    ((token = none ∨ token = some "") → loginWithToken token tokenLoginResult st = []) ∧
    (∀ t, token = some t → t ≠ "" → tokenLoginResult = none →
      loginWithToken token tokenLoginResult st =
        [Effect.doTokenLoginCall t, Effect.logErrorMsg "Failed to fetch user info from server",
         Effect.showWarningMessage ACStrings.FailedToExecuteLoginMsg] ∧
      (∀ n, Effect.statusBarAuthenticated n ∉ loginWithToken token tokenLoginResult st) ∧
      (∀ x, Effect.statusBarCurrentApp x ∉ loginWithToken token tokenLoginResult st)) := by
  constructor
  · intro h
    rcases h with h | h <;> subst h <;> simp [loginWithToken]
  · intro t ht hne hres
    subst ht
    subst hres
    refine ⟨by simp [loginWithToken, hne], ?_, ?_⟩ <;>
      intro y <;> simp [loginWithToken, hne]

/-- Witness for C8 at `undefined`, `""` and a failing token login. -/
theorem C8_loginWithToken_missing_token_witness :
    loginWithToken none none none = [] ∧
    loginWithToken (some "") none none = [] ∧
    loginWithToken (some "tok") none none =
      [Effect.doTokenLoginCall "tok", Effect.logErrorMsg "Failed to fetch user info from server",
       Effect.showWarningMessage ACStrings.FailedToExecuteLoginMsg] :=
  ⟨(C8_loginWithToken_missing_token none none none).1 (Or.inl rfl),
   (C8_loginWithToken_missing_token (some "") none none).1 (Or.inr rfl),
   ((C8_loginWithToken_missing_token (some "tok") none none).2 "tok" rfl (by decide) rfl).1⟩

end AppCenter

namespace AppCenter

/-- Claim C3: the login quick-pick offers the login type names and the
command branches on the selection: `Token` prompts for a token and runs
`loginWithToken`; `Interactive` shows the browser message with an `"OK"`
item and, exactly when the answer lower-cases to `"ok"`, opens the login
url and prompts for a token passed to `loginWithToken`; any other
selection, dismissal included, raises `"Unsupported login parameter!"`. -/
theorem C3_login_quickpick_branches (quickPick infoSel tokenInput : Option String)
    (tokenLoginResult st : Option Profile) (url : String) :
    (login quickPick infoSel tokenInput tokenLoginResult st url).trace.head? =
      some (Effect.showQuickPick appCenterLoginOptions ACStrings.SelectLoginTypeMsg) ∧
    (quickPick = some "Token" →
      (login quickPick infoSel tokenInput tokenLoginResult st url).trace =
        [Effect.showQuickPick appCenterLoginOptions ACStrings.SelectLoginTypeMsg,
         Effect.showInputBox ACStrings.PleaseProvideToken] ++
          loginWithToken tokenInput tokenLoginResult st) ∧
    (quickPick = some "Interactive" →
      (login quickPick infoSel tokenInput tokenLoginResult st url).trace =
        [Effect.showQuickPick appCenterLoginOptions ACStrings.SelectLoginTypeMsg,
         Effect.showInfoMessage ACStrings.PleaseLoginViaBrowser ["OK"]] ++
          interactiveSelectionHandler infoSel url tokenInput tokenLoginResult st) ∧
    (∀ sel, infoSel = some sel → jsToLowerCase sel = "ok" →
      interactiveSelectionHandler infoSel url tokenInput tokenLoginResult st =
        [Effect.openUrl url, Effect.showInputBox ACStrings.PleaseProvideToken] ++
          loginWithToken tokenInput tokenLoginResult st) ∧
    (∀ sel, infoSel = some sel → jsToLowerCase sel ≠ "ok" →
      interactiveSelectionHandler infoSel url tokenInput tokenLoginResult st = []) ∧
    (quickPick ≠ some "Token" → quickPick ≠ some "Interactive" →
      (login quickPick infoSel tokenInput tokenLoginResult st url).trace =
        [Effect.showQuickPick appCenterLoginOptions ACStrings.SelectLoginTypeMsg,
         Effect.fault "Unsupported login parameter!"]) := by
  refine ⟨?_, ?_, ?_, ?_, ?_, ?_⟩
  · cases quickPick with
    | none => simp [login]
    | some s => by_cases h1 : s = "Interactive" <;> by_cases h2 : s = "Token" <;>
        simp [login, h1, h2]
  · intro h
    subst h
    simp [login]
  · intro h
    subst h
    simp [login]
  · intro sel hsel hok
    subst hsel
    simp [interactiveSelectionHandler, hok]
  · intro sel hsel hok
    subst hsel
    simp [interactiveSelectionHandler, hok]
  · intro h1 h2
    cases quickPick with
    | none => simp [login]
    | some s =>
      have hs1 : s ≠ "Interactive" := fun h => h2 (by rw [h])
      have hs2 : s ≠ "Token" := fun h => h1 (by rw [h])
      simp [login, hs1, hs2]

/-- Witness for C3: the Token branch, the Interactive branch answered
`"OK"`, the Interactive branch answered `"no"`, and a dismissed
quick-pick. -/
theorem C3_login_quickpick_branches_witness :
    (login (some "Token") none (some "tok") none none "https://u").trace =
      [Effect.showQuickPick appCenterLoginOptions ACStrings.SelectLoginTypeMsg,
       Effect.showInputBox ACStrings.PleaseProvideToken] ++
        loginWithToken (some "tok") none none ∧
    interactiveSelectionHandler (some "OK") "https://u" (some "tok") none none =
      [Effect.openUrl "https://u", Effect.showInputBox ACStrings.PleaseProvideToken] ++
        loginWithToken (some "tok") none none ∧
    interactiveSelectionHandler (some "no") "https://u" (some "tok") none none = [] ∧
    (login none none none none none "https://u").trace =
      [Effect.showQuickPick appCenterLoginOptions ACStrings.SelectLoginTypeMsg,
       Effect.fault "Unsupported login parameter!"] :=
  ⟨(C3_login_quickpick_branches (some "Token") none (some "tok") none none "https://u").2.1 rfl,
   (C3_login_quickpick_branches (some "Token") (some "OK") (some "tok") none none
      "https://u").2.2.2.1 "OK" rfl (by decide),
   (C3_login_quickpick_branches (some "Token") (some "no") (some "tok") none none
      "https://u").2.2.2.2.1 "no" rfl (by decide),
   (C3_login_quickpick_branches none none none none none "https://u").2.2.2.2.2
      (by simp) (by simp)⟩

end AppCenter
